import Mathlib

/-!
Shallow embedding of the codeplot-compiler execution service (src/server.js).

The service accepts a JSON request { language, code, input? }, validates it,
creates a per-job workspace directory, creates, starts and attaches to a
Docker container running the composed compile-and-run command, feeds optional
standard input, waits for termination with a language-dependent deadline,
cleans up, and maps the exit status to an HTTP response.

The embedding models the side-effecting steps (filesystem and Docker engine
calls) through an environment record `Env` that fixes the outcome of each
fallible call, and records the sequence of operations the handler performs in
a trace of `Event` values.  The handler `handleExecute` is a direct
translation of the body of the POST /api/execute route of src/server.js.
-/

namespace Codeplot

/-- A language registry entry, translated from the `languageConfigs` object
literal of src/server.js (lines 79-142): sandbox image, source extension,
optional explicit file name, optional compile command, run command. -/
structure LanguageConfig where
  image : String
  ext : String
  fileName : Option String := none
  compile : Option String := none
  run : String
deriving DecidableEq, Repr

/-- The supported-language registry of src/server.js lines 79-142, as a lookup
function from the language identifier to its configuration. -/
def languageConfigs : String → Option LanguageConfig
  | "c" => some { image := "gcc:latest", ext := "c",
                  compile := some "gcc -o program program.c", run := "./program" }
  | "cpp" => some { image := "gcc:latest", ext := "cpp",
                    compile := some "g++ -o program program.cpp", run := "./program" }
  | "java" => some { image := "openjdk:17", ext := "java", fileName := some "Main.java",
                     compile := some "javac Main.java", run := "java Main" }
  | "python" => some { image := "python:3.9", ext := "py", run := "python program.py" }
  | "kotlin" => some { image := "kotlin:custom", ext := "kt",
                       compile := some "kotlinc program.kt -include-runtime -d program.jar",
                       run := "java -jar program.jar" }
  | "scala" => some { image := "scala:custom", ext := "scala",
                      compile := some "scalac program.scala", run := "scala Main" }
  | "javascript" => some { image := "node:16", ext := "js", run := "node program.js" }
  | "go" => some { image := "golang:latest", ext := "go", run := "go run program.go" }
  | "ruby" => some { image := "ruby:latest", ext := "rb", run := "ruby program.rb" }
  | "rust" => some { image := "rust:latest", ext := "rs",
                     compile := some "rustc -o program program.rs", run := "./program" }
  | "csharp" => some { image := "mcr.microsoft.com/dotnet/sdk:8.0", ext := "cs",
                       run := "dotnet script /app/program.cs" }
  | _ => none

/-- The identifiers accepted by `languageConfigs`. -/
def supportedLanguages : List String :=
  ["c", "cpp", "java", "python", "kotlin", "scala", "javascript", "go", "ruby", "rust",
   "csharp"]

/-- The per-job source file name: `config.fileName` when present, otherwise
`program.<ext>` (src/server.js line 173). -/
def sourceFileName (config : LanguageConfig) : String :=
  config.fileName.getD ("program." ++ config.ext)

/-- The sandbox entrypoint command, translated from src/server.js lines
192-199: the compile command (when present) and the run command are collected
into a list and joined with the string " && ". -/
def composeCommand (config : LanguageConfig) : String :=
  let command : List String :=
    (match config.compile with
     | some compileCmd => [compileCmd]
     | none => []) ++ [config.run]
  String.intercalate " && " command

/-- The wait deadline in milliseconds, translated from src/server.js line 308:
60000 when the language is csharp or javascript, 15000 otherwise. -/
def timeoutMs (language : String) : Nat :=
  if language = "csharp" ∨ language = "javascript" then 60000 else 15000

/-- Modelled from the spec: the registry marking of languages whose run
command has high startup latency (managed-runtime or script-engine languages
needing a heavier host process).  The code does not store the marking in the
registry; it hardcodes the marked set as csharp and javascript at the wait
site (src/server.js lines 307-308), so the marked set is that pair. -/
def highStartupLatency (language : String) : Bool :=
  ["csharp", "javascript"].contains language

/-- The options passed to docker.createContainer, translated from
src/server.js lines 204-218. -/
structure CreateOptions where
  «Image» : String
  «Cmd» : List String
  «WorkingDir» : String
  «Binds» : List String
  «Memory» : Nat
  «CpuPeriod» : Nat
  «CpuQuota» : Nat
  «AutoRemove» : Bool
  «Tty» : Bool
  «OpenStdin» : Bool
  «Detach» : Bool
deriving DecidableEq, Repr

/-- The create-container options as src/server.js lines 204-218 build them for
a given language configuration and workspace path. -/
def createOptions (config : LanguageConfig) (workDir : String) : CreateOptions where
  «Image» := config.image
  «Cmd» := ["/bin/sh", "-c", composeCommand config]
  «WorkingDir» := "/app"
  «Binds» := [workDir ++ ":/app"]
  «Memory» := 1536 * 1024 * 1024
  «CpuPeriod» := 100000
  «CpuQuota» := 150000
  «AutoRemove» := false
  «Tty» := false
  «OpenStdin» := true
  «Detach» := true

/-- A handle on the Docker engine, as produced by the dockerode constructor
(src/server.js line 18).  The constructor only records the socket path, so it
always succeeds; the handle itself carries no information in the model. -/
inductive DockerHandle where
  | mk
deriving DecidableEq, Repr

/-- src/server.js line 12. -/
def MAX_RETRIES : Nat := 5

/-- src/server.js line 13, in milliseconds. -/
def RETRY_DELAY : Nat := 2000

/-- One iteration of the retry loop of initializeDocker (src/server.js lines
16-38), with `fuel` the number of attempts still permitted (so the current
attempt is the last one exactly when `fuel = 1`).  The body first assigns the
constructed handle to the module-level `docker` variable and only then pings;
a failed ping leaves the assignment in place.  The function returns the final
value of the `docker` variable. -/
def initLoop (pingOk : Nat → Bool) : (attempt fuel : Nat) → Option DockerHandle
  | _, 0 => none
  | attempt, fuel + 1 =>
    let docker := some DockerHandle.mk
    if pingOk attempt then docker
    else if fuel = 0 then docker
    else initLoop pingOk (attempt + 1) fuel

/-- The startup connection probe (src/server.js lines 15-41): up to
MAX_RETRIES attempts, each constructing a handle, assigning it to the global
`docker` and then pinging.  Returns the value the global `docker` holds when
the probe finishes; `pingOk n` tells whether the liveness ping of attempt `n`
succeeds. -/
def initializeDocker (pingOk : Nat → Bool) : Option DockerHandle :=
  initLoop pingOk 1 MAX_RETRIES

/-- JavaScript truthiness of an optional string field: undefined and the
empty string are falsy (used for `!language`, `!code`, `if (input)`). -/
def truthy : Option String → Bool
  | none => false
  | some s => !(s == "")

/-- The request body of POST /api/execute: fields may be absent. -/
structure ExecRequest where
  language : Option String := none
  code : Option String := none
  input : Option String := none
deriving DecidableEq, Repr

/-- The operations the handler performs against the filesystem and the Docker
engine, in order, forming the observable trace of one request. -/
inductive Event where
  | mkWorkDir
  | writeCodeFile
  | writeInputFile
  | containerCreate (opts : CreateOptions)
  | fetchLogs
  | containerStart
  | containerAttach
  | demux
  | feedInput
  | containerWait (timeout : Nat)
  | inspect
  | containerRemove
  | rmWorkDir
deriving DecidableEq, Repr

/-- Whether an event is a container-creation attempt. -/
def Event.isCreate : Event → Bool
  | .containerCreate _ => true
  | _ => false

/-- Whether an event is a forced container removal. -/
def Event.isRemove : Event → Bool
  | .containerRemove => true
  | _ => false

/-- Whether an event is a workspace-directory removal. -/
def Event.isRmWorkDir : Event → Bool
  | .rmWorkDir => true
  | _ => false

/-- The HTTP response the handler produces: either `res.status(s).json({error})`
or the 200 success body `res.json({output, error})`. -/
inductive Response where
  | json (status : Nat) (errorMsg : String)
  | success (output : String) (error : String)
deriving DecidableEq, Repr

/-- How one invocation of the route ends: a response is sent, or an exception
escapes the async handler (reaching only the process-wide
unhandledRejection logger, so no response is ever sent). -/
inductive Outcome where
  | responded (r : Response)
  | unhandledRejection (msg : String)
deriving DecidableEq, Repr

/-- The outcome of every fallible external call one request can make.  For
each call wrapped by the route, `none` means the call succeeds and
`some msg` means it throws an exception whose message is `msg`.  `waitRes`
is either the exception of the wait call (timeout included) or the
StatusCode of the terminated container.  `output` and `error` are the texts
the demultiplexer accumulated into the stdout and stderr buffers by the time
the wait returns.  `logsRes`, `inspectRes`, `removeRes` and `removeCatchRes`
belong to calls whose failures the route catches and only logs. -/
structure Env where
  mkdirRes : Option String := none
  writeCodeRes : Option String := none
  writeInputRes : Option String := none
  createRes : Option String := none
  logsRes : Option String := none
  startRes : Option String := none
  attachRes : Option String := none
  demuxRes : Option String := none
  inputWriteRes : Option String := none
  waitRes : Except String Nat := .ok 0
  inspectRes : Option String := none
  removeRes : Option String := none
  rmRes : Option String := none
  removeCatchRes : Option String := none
  rmCatchRes : Option String := none
  output : String := ""
  error : String := ""
deriving Repr

/-- The catch block of the route (src/server.js lines 351-364): force-remove
the container when the `container` variable is non-null (removal failures
caught and logged), then remove the workspace directory and respond 500 with
the message of the caught exception.  The workspace removal is awaited
outside any try/catch, so its failure rejects the async handler and no
response is sent. -/
def catchCleanup (containerCreated : Bool) (errMsg : String) (env : Env)
    (tr : List Event) : List Event × Outcome :=
  let tr1 := if containerCreated then tr ++ [Event.containerRemove] else tr
  let tr2 := tr1 ++ [Event.rmWorkDir]
  match env.rmCatchRes with
  | some m => (tr2, .unhandledRejection m)
  | none => (tr2, .responded (.json 500 errMsg))

/-- The try block of the route (src/server.js lines 178-350), step by step;
every exception transfers control to `catchCleanup` with the message of the
throwing call and the nullness of the `container` variable at that point.
`inputTruthy` is the truthiness of the request input field, consulted at the
input-file write (line 186) and the stdin feed (line 296).  The container
removal of line 335 and the diagnostic capture of lines 315-322 are inside
their own try/catch, so their failures do not leave the block; the workspace
removal of line 342 is not, so its failure throws to the catch block. -/
def runJob (language : String) (inputTruthy : Bool) (config : LanguageConfig)
    (workDir : String) (env : Env) : List Event × Outcome :=
  let t0 := [Event.mkWorkDir]
  match env.mkdirRes with
  | some m => catchCleanup false m env t0
  | none =>
  let t1 := t0 ++ [Event.writeCodeFile]
  match env.writeCodeRes with
  | some m => catchCleanup false m env t1
  | none =>
  let t2 := if inputTruthy then t1 ++ [Event.writeInputFile] else t1
  match (if inputTruthy then env.writeInputRes else none) with
  | some m => catchCleanup false m env t2
  | none =>
  let t3 := t2 ++ [Event.containerCreate (createOptions config workDir)]
  match env.createRes with
  | some m => catchCleanup false m env t3
  | none =>
  let t4 := t3 ++ [Event.fetchLogs]
  let t5 := t4 ++ [Event.containerStart]
  match env.startRes with
  | some m => catchCleanup true m env t5
  | none =>
  let t6 := t5 ++ [Event.containerAttach]
  match env.attachRes with
  | some m => catchCleanup true m env t6
  | none =>
  let t7 := t6 ++ [Event.demux]
  match env.demuxRes with
  | some m => catchCleanup true m env t7
  | none =>
  let t8 := if inputTruthy then t7 ++ [Event.feedInput] else t7
  match (if inputTruthy then env.inputWriteRes else none) with
  | some m => catchCleanup true m env t8
  | none =>
  let t9 := t8 ++ [Event.containerWait (timeoutMs language)]
  match env.waitRes with
  | .error m =>
    let t10 := t9 ++ [Event.inspect]
    let t10 := if env.inspectRes = none then t10 ++ [Event.fetchLogs] else t10
    catchCleanup true m env t10
  | .ok statusCode =>
  let t11 := t9 ++ [Event.containerRemove]
  let t12 := t11 ++ [Event.rmWorkDir]
  match env.rmRes with
  | some m => catchCleanup true m env t12
  | none =>
  if statusCode ≠ 0 then
    (t12, .responded (.json 500 (if env.error = "" then "Execution failed" else env.error)))
  else
    (t12, .responded (.success env.output env.error))

/-- The POST /api/execute route of src/server.js lines 145-365: body and
field validation, registry lookup, the `!docker` availability gate, then the
try block with its catch.  `docker` is the current value of the module-level
variable the startup probe assigns; `workDir` is the per-job directory path
derived from the fresh job identifier. -/
def handleExecute (body : Option ExecRequest) (docker : Option DockerHandle)
    (workDir : String) (env : Env) : List Event × Outcome :=
  match body with
  | none => ([], .responded (.json 400 "Request body is missing"))
  | some req =>
    if !(truthy req.language) || !(truthy req.code) then
      ([], .responded (.json 400 "Language and code are required"))
    else
      match languageConfigs (req.language.getD "") with
      | none => ([], .responded (.json 400 "Unsupported language"))
      | some config =>
        match docker with
        | none => ([], .responded (.json 500 "Docker service unavailable"))
        | some _ =>
          runJob (req.language.getD "") (truthy req.input) config workDir env

/-! Concrete fixtures used by witness and counterexample theorems. -/

/-- A well-formed request for the python entry of the registry. -/
def pythonRequest : ExecRequest :=
  { language := some "python", code := some "print(40 + 2)", input := none }

/-- The registry entry for python, as literal data. -/
def pythonConfig : LanguageConfig :=
  { image := "python:3.9", ext := "py", run := "python program.py" }

/-- The registry entry for c, as literal data. -/
def cConfig : LanguageConfig :=
  { image := "gcc:latest", ext := "c", compile := some "gcc -o program program.c",
    run := "./program" }

/-- A request whose language is not in the registry. -/
def cobolRequest : ExecRequest :=
  { language := some "cobol", code := some "DISPLAY 1." }

/-- A ping oracle under which every liveness ping of the startup probe fails. -/
def pingNeverOk : Nat → Bool := fun _ => false

/-- An environment in which the engine is unreachable, so the
create-container call fails with a connection error. -/
def engineDownEnv : Env :=
  { createRes := some "connect ENOENT /var/run/docker.sock" }

/-- An environment for an exit-0 job whose workspace deletion at line 342
throws; the deletion retried in the catch block succeeds. -/
def workspaceDeleteFailEnv : Env :=
  { waitRes := .ok 0, rmRes := some "EACCES: permission denied, rmdir temp/j3",
    output := "42", error := "" }

/-- An environment for a job that exits with code 2 after writing to stderr,
and whose workspace deletion at line 342 throws; the deletion retried in the
catch block succeeds. -/
def nonzeroExitDeleteFailEnv : Env :=
  { waitRes := .ok 2, error := "boom",
    rmRes := some "ENOTEMPTY: directory not empty, rmdir temp/j4c" }

/-- An environment for a job that exits with code 0 after writing to stdout,
and whose workspace deletion at line 342 throws; the deletion retried in the
catch block succeeds. -/
def zeroExitDeleteFailEnv : Env :=
  { waitRes := .ok 0, output := "hello", error := "",
    rmRes := some "EPERM: operation not permitted, rmdir temp/j10c" }

/-! Helper lemmas. -/

/-- The wait deadline of the route equals the deadline the spec assigns by the
high-startup-latency marking. -/
theorem timeoutMs_eq (language : String) :
    timeoutMs language = if highStartupLatency language then 60000 else 15000 := by
  unfold timeoutMs highStartupLatency
  by_cases h : language = "csharp" ∨ language = "javascript" <;>
    simp_all [List.contains]

/-- Every container-creation event a run of the route emits carries exactly
the options `createOptions` builds for the selected registry entry and the
workspace path of the job. -/
theorem create_event_shape (body : ExecRequest) (docker : DockerHandle) (workDir : String)
    (env : Env) (opts : CreateOptions)
    (hmem : Event.containerCreate opts ∈ (handleExecute (some body) (some docker) workDir env).1) :
    ∃ config, languageConfigs (body.language.getD "") = some config ∧
      opts = createOptions config workDir := by
  simp only [handleExecute, runJob, catchCleanup] at hmem
  repeat' split at hmem
  all_goals simp_all

/-- Field values of the create-container options of src/server.js lines
204-218: the memory ceiling is 1536 MiB, that is 1.5 GiB; the cpu quota is
150 percent of the period; tty off, stdin open, detached, no auto-removal. -/
theorem createOptions_fields (config : LanguageConfig) (workDir : String) :
    (createOptions config workDir).Memory = 1536 * 1024 * 1024 ∧
    2 * (createOptions config workDir).Memory = 3 * 1024 ^ 3 ∧
    (createOptions config workDir).CpuPeriod = 100000 ∧
    (createOptions config workDir).CpuQuota = 150000 ∧
    2 * (createOptions config workDir).CpuQuota = 3 * (createOptions config workDir).CpuPeriod ∧
    (createOptions config workDir).Tty = false ∧
    (createOptions config workDir).OpenStdin = true ∧
    (createOptions config workDir).Detach = true ∧
    (createOptions config workDir).AutoRemove = false := by
  refine ⟨rfl, by norm_num [createOptions], rfl, rfl, by norm_num [createOptions],
    rfl, rfl, rfl, rfl⟩

/-! Claim theorems. -/

/-- C1: the claim says that after the startup probe exhausts all retry
attempts without a successful liveness ping, every POST /api/execute request
is rejected with the 500 service-unavailable error and no sandbox operation
is attempted.  The code violates this: the dockerode handle is assigned to
the module-level `docker` variable before the ping is verified (line 18), so
after five failed pings `docker` is still non-null, the `!docker` gate of
line 165 does not fire, and a valid request proceeds to create its workspace
and attempt container creation, responding 500 with the engine error instead
of the service-unavailable message. -/
theorem c1_gate_ineffective :
    initializeDocker pingNeverOk = some DockerHandle.mk ∧
    handleExecute (some pythonRequest) (initializeDocker pingNeverOk) "temp/j0"
        engineDownEnv =
      ([Event.mkWorkDir, Event.writeCodeFile,
        Event.containerCreate (createOptions pythonConfig "temp/j0"), Event.rmWorkDir],
       .responded (.json 500 "connect ENOENT /var/run/docker.sock")) ∧
    (handleExecute (some pythonRequest) (initializeDocker pingNeverOk) "temp/j0"
        engineDownEnv).2 ≠
      .responded (.json 500 "Docker service unavailable") := by
  refine ⟨by decide, by decide, by decide⟩

/-- C2: for every request that creates a workspace directory (validation
passed, engine handle present, mkdir succeeded), and whose cleanup calls do
not themselves throw, the trace removes the workspace directory exactly once,
force-removes the container exactly as many times as a container was
successfully created, and a response is always sent — on zero exit, non-zero
exit, wait timeout, and every exception during setup or execution. -/
theorem c2_cleanup_exactly_once (body : ExecRequest) (docker : DockerHandle)
    (workDir : String) (env : Env)
    (hL : truthy body.language = true) (hC : truthy body.code = true)
    (config : LanguageConfig) (hcfg : languageConfigs (body.language.getD "") = some config)
    (hmk : env.mkdirRes = none) (hrm : env.rmRes = none) (hrmc : env.rmCatchRes = none) :
    ((handleExecute (some body) (some docker) workDir env).1.countP
        (fun e => e.isRmWorkDir) = 1) ∧
    ((handleExecute (some body) (some docker) workDir env).1.countP
        (fun e => e.isRemove) =
      if env.createRes = none then
        (handleExecute (some body) (some docker) workDir env).1.countP
          (fun e => e.isCreate)
      else 0) ∧
    (∃ r, (handleExecute (some body) (some docker) workDir env).2 = .responded r) := by
  simp only [handleExecute, runJob, catchCleanup, hL, hC, hcfg, hmk, hrm, hrmc]
  repeat' split
  all_goals
    simp_all [List.countP_cons, List.countP_append, Event.isRmWorkDir, Event.isRemove,
      Event.isCreate]

/-- C2 witness: a concrete zero-exit python run removes the workspace exactly
once, removes the container once, and responds. -/
theorem c2_cleanup_exactly_once_witness :
    ((handleExecute (some pythonRequest) (some .mk) "temp/j2" {}).1.countP
        (fun e => e.isRmWorkDir) = 1) ∧
    ((handleExecute (some pythonRequest) (some .mk) "temp/j2" {}).1.countP
        (fun e => e.isRemove) =
      if ({} : Env).createRes = none then
        (handleExecute (some pythonRequest) (some .mk) "temp/j2" {}).1.countP
          (fun e => e.isCreate)
      else 0) ∧
    (∃ r, (handleExecute (some pythonRequest) (some .mk) "temp/j2" {}).2 = .responded r) :=
  c2_cleanup_exactly_once pythonRequest .mk "temp/j2" {} (by decide) (by decide)
    pythonConfig (by decide) rfl rfl rfl

/-- C3 counterexample: the claim says a cleanup failure never propagates and
never changes the already-determined result, so an exit-0 job still gets the
200 success response.  In the code the workspace deletion of line 342 is not
inside a try/catch: when it throws after a zero-exit run, the catch block
responds 500 with the deletion error, not the 200 success body. -/
theorem c3_counterexample :
    (handleExecute (some pythonRequest) (some .mk) "temp/j3" workspaceDeleteFailEnv).2 =
      .responded (.json 500 "EACCES: permission denied, rmdir temp/j3") ∧
    ∀ o e,
      (handleExecute (some pythonRequest) (some .mk) "temp/j3" workspaceDeleteFailEnv).2 ≠
        .responded (.success o e) := by
  have h2 : (handleExecute (some pythonRequest) (some .mk) "temp/j3" workspaceDeleteFailEnv).2 =
      .responded (.json 500 "EACCES: permission denied, rmdir temp/j3") := by decide
  refine ⟨h2, fun o e h => ?_⟩
  rw [h2] at h
  simp at h

/-- C3 amended: a failure of the forced container removal is logged only and
never changes the result — an exit-0 job still produces the 200 success
response.  A failure of the workspace deletion, however, propagates: on the
normal path it replaces the result with a 500 carrying the deletion error,
and when the deletion retried in the catch block also throws, the handler
sends no response at all. -/
theorem c3_amended (body : ExecRequest) (docker : DockerHandle) (workDir : String)
    (env : Env) (remMsg delMsg escMsg : String)
    (hL : truthy body.language = true) (hC : truthy body.code = true)
    (config : LanguageConfig) (hcfg : languageConfigs (body.language.getD "") = some config)
    (hmk : env.mkdirRes = none) (hwc : env.writeCodeRes = none) (hwi : env.writeInputRes = none)
    (hcr : env.createRes = none) (hst : env.startRes = none) (hat : env.attachRes = none)
    (hdm : env.demuxRes = none) (hiw : env.inputWriteRes = none)
    (hw : env.waitRes = .ok 0) :
    ((handleExecute (some body) (some docker) workDir
        { env with removeRes := some remMsg, rmRes := none }).2 =
      .responded (.success env.output env.error)) ∧
    ((handleExecute (some body) (some docker) workDir
        { env with rmRes := some delMsg, rmCatchRes := none }).2 =
      .responded (.json 500 delMsg)) ∧
    ((handleExecute (some body) (some docker) workDir
        { env with rmRes := some delMsg, rmCatchRes := some escMsg }).2 =
      .unhandledRejection escMsg) := by
  refine ⟨?_, ?_, ?_⟩ <;>
  · simp only [handleExecute, runJob, catchCleanup, hL, hC, hcfg, hmk, hwc, hwi, hcr, hst,
      hat, hdm, hiw, hw]
    repeat' split
    all_goals simp_all

/-- C3 witness: concrete runs showing the three amended cases. -/
theorem c3_amended_witness :
    ((handleExecute (some pythonRequest) (some .mk) "temp/j3b"
        { ({ waitRes := .ok 0, output := "42" } : Env) with
          removeRes := some "no such container", rmRes := none }).2 =
      .responded (.success ({ waitRes := .ok 0, output := "42" } : Env).output
        ({ waitRes := .ok 0, output := "42" } : Env).error)) ∧
    ((handleExecute (some pythonRequest) (some .mk) "temp/j3b"
        { ({ waitRes := .ok 0, output := "42" } : Env) with
          rmRes := some "EBUSY", rmCatchRes := none }).2 =
      .responded (.json 500 "EBUSY")) ∧
    ((handleExecute (some pythonRequest) (some .mk) "temp/j3b"
        { ({ waitRes := .ok 0, output := "42" } : Env) with
          rmRes := some "EBUSY", rmCatchRes := some "EBUSY" }).2 =
      .unhandledRejection "EBUSY") :=
  c3_amended pythonRequest .mk "temp/j3b" { waitRes := .ok 0, output := "42" }
    "no such container" "EBUSY" "EBUSY" (by decide) (by decide) pythonConfig (by decide)
    rfl rfl rfl rfl rfl rfl rfl rfl rfl

/-- C4 counterexample: the claim says every job terminating with a non-zero
exit code responds 500 with the captured stderr text, or the generic message
when stderr is empty.  The workspace deletion of line 342 runs before the
status check of line 344 and is not inside a try/catch, so when it throws
after an exit-2 run with stderr recorded, the catch block responds 500 with
the deletion error — neither the captured stderr nor the generic message. -/
theorem c4_counterexample :
    (handleExecute (some pythonRequest) (some .mk) "temp/j4c" nonzeroExitDeleteFailEnv).2 =
      .responded (.json 500 "ENOTEMPTY: directory not empty, rmdir temp/j4c") ∧
    (handleExecute (some pythonRequest) (some .mk) "temp/j4c" nonzeroExitDeleteFailEnv).2 ≠
      .responded (.json 500 "boom") ∧
    (handleExecute (some pythonRequest) (some .mk) "temp/j4c" nonzeroExitDeleteFailEnv).2 ≠
      .responded (.json 500 "Execution failed") := by
  refine ⟨by decide, by decide, by decide⟩

/-- C4 amended: every job that terminates with a non-zero exit code and
whose workspace deletion does not throw gets a 500 response whose error
message is the captured stderr text, or the generic message when the
captured stderr is empty; that response is determined by the stderr buffer
alone, so the numeric exit code is never exposed to the caller.  When the
workspace deletion throws, the 500 carries the deletion error message
instead. -/
theorem c4_nonzero_exit (body : ExecRequest) (docker : DockerHandle) (workDir : String)
    (env : Env) (delMsg : String)
    (hL : truthy body.language = true) (hC : truthy body.code = true)
    (config : LanguageConfig) (hcfg : languageConfigs (body.language.getD "") = some config)
    (hmk : env.mkdirRes = none) (hwc : env.writeCodeRes = none) (hwi : env.writeInputRes = none)
    (hcr : env.createRes = none) (hst : env.startRes = none) (hat : env.attachRes = none)
    (hdm : env.demuxRes = none) (hiw : env.inputWriteRes = none)
    (n : Nat) (hn : n ≠ 0) (hw : env.waitRes = .ok n) :
    ((handleExecute (some body) (some docker) workDir { env with rmRes := none }).2 =
      .responded (.json 500 (if env.error = "" then "Execution failed" else env.error))) ∧
    ((handleExecute (some body) (some docker) workDir
        { env with rmRes := some delMsg, rmCatchRes := none }).2 =
      .responded (.json 500 delMsg)) := by
  refine ⟨?_, ?_⟩ <;>
  · simp only [handleExecute, runJob, catchCleanup, hL, hC, hcfg, hmk, hwc, hwi, hcr, hst,
      hat, hdm, hiw, hw]
    repeat' split
    all_goals simp_all

/-- C4 witness: a concrete exit-1 run with non-empty stderr yields the 500
response carrying that stderr text when deletion succeeds, and the 500
carrying the deletion error when deletion throws. -/
theorem c4_nonzero_exit_witness :
    ((handleExecute (some pythonRequest) (some .mk) "temp/j4"
        { ({ waitRes := .ok 1, error := "Traceback: boom" } : Env) with rmRes := none }).2 =
      .responded (.json 500
        (if ({ waitRes := .ok 1, error := "Traceback: boom" } : Env).error = ""
         then "Execution failed"
         else ({ waitRes := .ok 1, error := "Traceback: boom" } : Env).error))) ∧
    ((handleExecute (some pythonRequest) (some .mk) "temp/j4"
        { ({ waitRes := .ok 1, error := "Traceback: boom" } : Env) with
          rmRes := some "ENOENT", rmCatchRes := none }).2 =
      .responded (.json 500 "ENOENT")) :=
  c4_nonzero_exit pythonRequest .mk "temp/j4" { waitRes := .ok 1, error := "Traceback: boom" }
    "ENOENT" (by decide) (by decide) pythonConfig (by decide) rfl rfl rfl rfl rfl rfl rfl
    rfl 1 (by decide) rfl

/-- C5: whenever a run of the route waits for termination, the deadline it
passes is exactly 60000 milliseconds when the language carries the
high-startup-latency marking and exactly 15000 milliseconds otherwise. -/
theorem c5_wait_deadline (body : ExecRequest) (docker : DockerHandle) (workDir : String)
    (env : Env) (t : Nat)
    (hmem : Event.containerWait t ∈ (handleExecute (some body) (some docker) workDir env).1) :
    t = if highStartupLatency (body.language.getD "") then 60000 else 15000 := by
  rw [← timeoutMs_eq]
  simp only [handleExecute, runJob, catchCleanup] at hmem
  repeat' split at hmem
  all_goals simp_all

/-- C5 witness: a concrete python run waits with the 15-second deadline. -/
theorem c5_wait_deadline_witness :
    15000 = if highStartupLatency (pythonRequest.language.getD "") then 60000 else 15000 :=
  c5_wait_deadline pythonRequest .mk "temp/j1" {} 15000 (by decide)

/-- C6: for every supported language identifier the registry lookup returns a
spec whose run command is non-empty, and the composed sandbox entrypoint
command is the compile command joined to the run command by the logical-AND
separator when a compile command exists, and the run command alone
otherwise. -/
theorem c6_lookup (lang : String) (spec : LanguageConfig)
    (h : languageConfigs lang = some spec) :
    spec.run ≠ "" ∧ composeCommand spec = (match spec.compile with
      | some compileCmd => compileCmd ++ " && " ++ spec.run
      | none => spec.run) := by
  unfold languageConfigs at h
  split at h
  all_goals try (injection h with h; subst h; exact ⟨by decide, by decide⟩)
  all_goals simp at h

/-- C6 witness: the c entry has a non-empty run command and composes to
compile-AND-run. -/
theorem c6_lookup_witness :
    cConfig.run ≠ "" ∧ composeCommand cConfig = (match cConfig.compile with
      | some compileCmd => compileCmd ++ " && " ++ cConfig.run
      | none => cConfig.run) :=
  c6_lookup "c" cConfig (by decide)

/-- C7: every container-creation attempt a run of the route emits carries
exactly the fixed caps and settings: a 1.5 GiB memory ceiling, a cpu
period/quota pair of 100000/150000 (150 percent of one core), tty disabled,
stdin enabled, detached, and auto-removal-on-exit disabled. -/
theorem c7_create_options (body : ExecRequest) (docker : DockerHandle) (workDir : String)
    (env : Env) (opts : CreateOptions)
    (hmem : Event.containerCreate opts ∈ (handleExecute (some body) (some docker) workDir env).1) :
    opts.Memory = 1536 * 1024 * 1024 ∧ 2 * opts.Memory = 3 * 1024 ^ 3 ∧
    opts.CpuPeriod = 100000 ∧ opts.CpuQuota = 150000 ∧
    2 * opts.CpuQuota = 3 * opts.CpuPeriod ∧
    opts.Tty = false ∧ opts.OpenStdin = true ∧ opts.Detach = true ∧
    opts.AutoRemove = false := by
  obtain ⟨config, -, rfl⟩ := create_event_shape body docker workDir env opts hmem
  exact createOptions_fields config workDir

/-- C7 witness: the creation event of a concrete python run carries the capped
options. -/
theorem c7_create_options_witness :
    (createOptions pythonConfig "temp/j1").Memory = 1536 * 1024 * 1024 ∧
    2 * (createOptions pythonConfig "temp/j1").Memory = 3 * 1024 ^ 3 ∧
    (createOptions pythonConfig "temp/j1").CpuPeriod = 100000 ∧
    (createOptions pythonConfig "temp/j1").CpuQuota = 150000 ∧
    2 * (createOptions pythonConfig "temp/j1").CpuQuota =
      3 * (createOptions pythonConfig "temp/j1").CpuPeriod ∧
    (createOptions pythonConfig "temp/j1").Tty = false ∧
    (createOptions pythonConfig "temp/j1").OpenStdin = true ∧
    (createOptions pythonConfig "temp/j1").Detach = true ∧
    (createOptions pythonConfig "temp/j1").AutoRemove = false :=
  c7_create_options pythonRequest .mk "temp/j1" {} (createOptions pythonConfig "temp/j1")
    (by decide)

/-- C8: for every request whose body is missing, whose language or code field
is missing or empty, or whose language is unsupported, the route responds
with a 400 validation error and its trace is empty — no workspace directory
is created and no sandbox operation is attempted. -/
theorem c8_validation (body : Option ExecRequest) (docker : Option DockerHandle)
    (workDir : String) (env : Env)
    (h : body = none ∨ ∃ req, body = some req ∧
      (truthy req.language = false ∨ truthy req.code = false ∨
       languageConfigs (req.language.getD "") = none)) :
    ∃ msg, handleExecute body docker workDir env = ([], .responded (.json 400 msg)) := by
  rcases h with rfl | ⟨req, rfl, h⟩
  · exact ⟨"Request body is missing", rfl⟩
  · by_cases hv : (!truthy req.language || !truthy req.code) = true
    · exact ⟨"Language and code are required", by simp [handleExecute, hv]⟩
    · rcases h with h | h | h
      · simp [h] at hv
      · simp [h] at hv
      · exact ⟨"Unsupported language", by simp [handleExecute, hv, h]⟩

/-- C8 witness: a request in an unsupported language gets a 400 response with
an empty trace. -/
theorem c8_validation_witness :
    ∃ msg, handleExecute (some cobolRequest) (some .mk) "temp/j8" {} =
      ([], .responded (.json 400 msg)) :=
  c8_validation (some cobolRequest) (some .mk) "temp/j8" {}
    (Or.inr ⟨cobolRequest, rfl, Or.inr (Or.inr (by decide))⟩)

set_option maxHeartbeats 2000000 in
/-- C9: an empty-string input field behaves exactly like an absent one — the
whole run is identical, no input file is written and nothing is fed to the
attached stdin channel — while a non-empty input string triggers both the
input-file write and the stdin feed. -/
theorem c9_empty_input (body : ExecRequest) (docker : DockerHandle) (workDir : String)
    (env : Env) (s : String)
    (hL : truthy body.language = true) (hC : truthy body.code = true)
    (config : LanguageConfig) (hcfg : languageConfigs (body.language.getD "") = some config)
    (hin : body.input = some s) (hs : s ≠ "")
    (hmk : env.mkdirRes = none) (hwc : env.writeCodeRes = none) (hwi : env.writeInputRes = none)
    (hcr : env.createRes = none) (hst : env.startRes = none) (hat : env.attachRes = none)
    (hdm : env.demuxRes = none) :
    (handleExecute (some { body with input := some "" }) (some docker) workDir env =
      handleExecute (some { body with input := none }) (some docker) workDir env) ∧
    (Event.writeInputFile ∉
      (handleExecute (some { body with input := some "" }) (some docker) workDir env).1) ∧
    (Event.feedInput ∉
      (handleExecute (some { body with input := some "" }) (some docker) workDir env).1) ∧
    (Event.writeInputFile ∈ (handleExecute (some body) (some docker) workDir env).1) ∧
    (Event.feedInput ∈ (handleExecute (some body) (some docker) workDir env).1) := by
  have hbi : truthy body.input = true := by
    rw [hin]; simp [truthy, hs]
  have he : truthy (some "") = false := by decide
  have hn0 : truthy (none : Option String) = false := by decide
  refine ⟨by simp only [handleExecute, he, hn0], ?_, ?_, ?_, ?_⟩ <;>
  · simp only [handleExecute, runJob, catchCleanup, he, hn0, hbi, hL, hC, hcfg, hmk, hwc,
      hwi, hcr, hst, hat, hdm]
    repeat' split
    all_goals simp_all

/-- C9 witness: with empty input the run equals the no-input run and performs
neither input operation; with the input string of two numbers both input
operations appear in the trace. -/
theorem c9_empty_input_witness :
    (handleExecute (some { pythonRequest with input := some "" }) (some .mk) "temp/j9"
        { waitRes := .ok 0 } =
      handleExecute (some { pythonRequest with input := none }) (some .mk) "temp/j9"
        { waitRes := .ok 0 }) ∧
    (Event.writeInputFile ∉
      (handleExecute (some { pythonRequest with input := some "" }) (some .mk) "temp/j9"
          { waitRes := .ok 0 }).1) ∧
    (Event.feedInput ∉
      (handleExecute (some { pythonRequest with input := some "" }) (some .mk) "temp/j9"
          { waitRes := .ok 0 }).1) ∧
    (Event.writeInputFile ∈
      (handleExecute (some { pythonRequest with input := some "1 2\n" }) (some .mk) "temp/j9"
          { waitRes := .ok 0 }).1) ∧
    (Event.feedInput ∈
      (handleExecute (some { pythonRequest with input := some "1 2\n" }) (some .mk) "temp/j9"
          { waitRes := .ok 0 }).1) :=
  c9_empty_input { pythonRequest with input := some "1 2\n" } .mk "temp/j9"
    { waitRes := .ok 0 } "1 2\n" (by decide) (by decide) pythonConfig (by decide) rfl
    (by decide) rfl rfl rfl rfl rfl rfl rfl

/-- C10 counterexample: the claim says every job terminating with exit code 0
gets the 200 success body.  When the workspace deletion of line 342 throws
after a zero-exit run, the catch block responds 500 with the deletion error
and no success body is ever sent. -/
theorem c10_counterexample :
    (handleExecute (some pythonRequest) (some .mk) "temp/j10c" zeroExitDeleteFailEnv).2 =
      .responded (.json 500 "EPERM: operation not permitted, rmdir temp/j10c") ∧
    ∀ o e,
      (handleExecute (some pythonRequest) (some .mk) "temp/j10c" zeroExitDeleteFailEnv).2 ≠
        .responded (.success o e) := by
  have h2 : (handleExecute (some pythonRequest) (some .mk) "temp/j10c" zeroExitDeleteFailEnv).2 =
      .responded (.json 500 "EPERM: operation not permitted, rmdir temp/j10c") := by decide
  refine ⟨h2, fun o e h => ?_⟩
  rw [h2] at h
  simp at h

/-- C10 amended: every job that terminates with exit code 0 and whose
workspace deletion does not throw gets the 200 success body carrying both
the captured stdout and the captured stderr; the stderr buffer is
unconstrained, so success never requires it to be empty.  When the workspace
deletion throws, the response is a 500 carrying the deletion error message
instead. -/
theorem c10_zero_exit (body : ExecRequest) (docker : DockerHandle) (workDir : String)
    (env : Env) (delMsg : String)
    (hL : truthy body.language = true) (hC : truthy body.code = true)
    (config : LanguageConfig) (hcfg : languageConfigs (body.language.getD "") = some config)
    (hmk : env.mkdirRes = none) (hwc : env.writeCodeRes = none) (hwi : env.writeInputRes = none)
    (hcr : env.createRes = none) (hst : env.startRes = none) (hat : env.attachRes = none)
    (hdm : env.demuxRes = none) (hiw : env.inputWriteRes = none)
    (hw : env.waitRes = .ok 0) :
    ((handleExecute (some body) (some docker) workDir { env with rmRes := none }).2 =
      .responded (.success env.output env.error)) ∧
    ((handleExecute (some body) (some docker) workDir
        { env with rmRes := some delMsg, rmCatchRes := none }).2 =
      .responded (.json 500 delMsg)) := by
  refine ⟨?_, ?_⟩ <;>
  · simp only [handleExecute, runJob, catchCleanup, hL, hC, hcfg, hmk, hwc, hwi, hcr, hst,
      hat, hdm, hiw, hw]
    repeat' split
    all_goals simp_all

/-- C10 witness: a concrete zero-exit run with non-empty stderr gets the 200
success body carrying both streams when deletion succeeds, and the 500
carrying the deletion error when deletion throws. -/
theorem c10_zero_exit_witness :
    ((handleExecute (some pythonRequest) (some .mk) "temp/j10"
        { ({ waitRes := .ok 0, output := "42", error := "warning: deprecated" } : Env) with
          rmRes := none }).2 =
      .responded (.success
        ({ waitRes := .ok 0, output := "42", error := "warning: deprecated" } : Env).output
        ({ waitRes := .ok 0, output := "42", error := "warning: deprecated" } : Env).error)) ∧
    ((handleExecute (some pythonRequest) (some .mk) "temp/j10"
        { ({ waitRes := .ok 0, output := "42", error := "warning: deprecated" } : Env) with
          rmRes := some "EROFS", rmCatchRes := none }).2 =
      .responded (.json 500 "EROFS")) :=
  c10_zero_exit pythonRequest .mk "temp/j10"
    { waitRes := .ok 0, output := "42", error := "warning: deprecated" } "EROFS"
    (by decide) (by decide) pythonConfig (by decide) rfl rfl rfl rfl rfl rfl rfl rfl rfl

end Codeplot
